import Mathlib

/-!
Verification of the ranking, reconciliation, labeling and dashboard-rendering
logic of the top-issues action.

The definitions below are a shallow embedding of the TypeScript sources:
`src/helpers.ts` (ranking pipeline, set difference, label mutation guards,
dashboard markdown) and `src/main.ts` (the early-exit condition).
JavaScript numbers are modelled as `Int`, arrays as `List`, and the stable
`Array.prototype.sort` (guaranteed stable since ES2019) as insertion sort
with the comparator's induced relation.
-/

namespace TopIssuesAction

/-- Reaction count object returned by GraphQL: `{totalCount: number}`. -/
structure ReactionCount where
  totalCount : Int
deriving DecidableEq, Repr

/-- Label node returned by GraphQL: `{name: string}`. -/
structure LabelNode where
  name : String
deriving DecidableEq, Repr

/-- Label connection returned by GraphQL: `{nodes: {name: string}[]}`. -/
structure LabelConnection where
  nodes : List LabelNode
deriving DecidableEq, Repr

/-- Issue object returned by GraphQL (`IssueNode` in `src/types.d.ts`). -/
structure IssueNode where
  number : Int
  title : String
  positive : ReactionCount
  negative : ReactionCount
  labels : LabelConnection
deriving DecidableEq, Repr

/-- Issue object with the additional `totalReactions` property
(`TopIssueNode` in `src/types.d.ts`, which extends `IssueNode`). -/
structure TopIssueNode where
  number : Int
  title : String
  positive : ReactionCount
  negative : ReactionCount
  labels : LabelConnection
  totalReactions : Int
deriving DecidableEq, Repr

/-- Forgetting the extra `totalReactions` field recovers the underlying
`IssueNode` (in TypeScript this is the structural subtyping coercion). -/
def toIssueNode (t : TopIssueNode) : IssueNode :=
  { number := t.number, title := t.title, positive := t.positive,
    negative := t.negative, labels := t.labels }

/-- `getReactionsCount` from `src/helpers.ts` (lines 265-272):
`subtractNegative ? positive.totalCount - negative.totalCount : positive.totalCount`. -/
def getReactionsCount (issue : IssueNode) (subtractNegative : Bool) : Int :=
  if subtractNegative then issue.positive.totalCount - issue.negative.totalCount
  else issue.positive.totalCount

/-- The element operation of `addTotalReactions`: the object spread
`{...issue, totalReactions: getReactionsCount(issue, subtractNegative)}`. -/
def mkTopIssue (issue : IssueNode) (subtractNegative : Bool) : TopIssueNode :=
  { number := issue.number, title := issue.title, positive := issue.positive,
    negative := issue.negative, labels := issue.labels,
    totalReactions := getReactionsCount issue subtractNegative }

/-- `addTotalReactions` from `src/helpers.ts` (lines 280-292): the for-loop
pushes the spread object for each issue, i.e. a map. -/
def addTotalReactions (issues : List IssueNode) (subtractNegative : Bool) :
    List TopIssueNode :=
  issues.map (fun issue => mkTopIssue issue subtractNegative)

/-- `issuesWithLabel` from `src/helpers.ts` (lines 250-257). -/
def issuesWithLabel (issues : List IssueNode) (label : String) : List IssueNode :=
  issues.filter (fun issue => issue.labels.nodes.any (fun lab => lab.name == label))

/-- The comparator `(a, b) => b.totalReactions - a.totalReactions` sorts
descending by `totalReactions`; the induced ordering relation. -/
def topIssueGE (a b : TopIssueNode) : Prop :=
  b.totalReactions ≤ a.totalReactions

instance : DecidableRel topIssueGE :=
  fun a b => inferInstanceAs (Decidable (b.totalReactions ≤ a.totalReactions))

instance : IsTotal TopIssueNode topIssueGE :=
  ⟨fun a b => (Int.le_total a.totalReactions b.totalReactions).symm⟩

instance : IsTrans TopIssueNode topIssueGE :=
  ⟨fun _ _ _ hab hbc => le_trans hbc hab⟩

/-- JavaScript `arr.slice(0, size)` for an integer `size`: a non-negative end
index truncates to the first `size` elements (clamped at the length); a
negative end index counts from the end, keeping `max(length + size, 0)`
elements. -/
def jsSlice0 (size : Int) (l : List α) : List α :=
  if 0 ≤ size then l.take size.toNat
  else l.take ((l.length : Int) + size).toNat

/-- The filter pipeline of `getTopIssues` from `src/helpers.ts`
(lines 309-318), before sorting and slicing:
1. `addTotalReactions` (line 309);
2. keep issues with no labels or with some label different from
   `dashboardLabel` (lines 310-314);
3. when a non-empty `filter` list is given, drop issues whose number it
   contains (lines 315-317);
4. keep issues with `totalReactions > 0` (line 318). -/
def eligibleTopIssues (issues : List IssueNode) (subtractNegative : Bool)
    (dashboardLabel : String) (filter : Option (List Int)) : List TopIssueNode :=
  let t1 : List TopIssueNode := addTotalReactions issues subtractNegative
  let t2 : List TopIssueNode := t1.filter (fun issue =>
    (issue.labels.nodes.length == 0) ||
      issue.labels.nodes.any (fun lab => lab.name != dashboardLabel))
  let t3 : List TopIssueNode := match filter with
    | some f => if 0 < f.length then
        t2.filter (fun issue => !(f.contains issue.number))
      else t2
    | none => t2
  t3.filter (fun issue => decide (0 < issue.totalReactions))

/-- `getTopIssues` from `src/helpers.ts` (lines 302-323): the filter pipeline,
then the stable sort `(a, b) => b.totalReactions - a.totalReactions`
(lines 319-321), then `slice(0, size)` (line 322). -/
def getTopIssues (issues : List IssueNode) (size : Int) (subtractNegative : Bool)
    (dashboardLabel : String) (filter : Option (List Int)) : List TopIssueNode :=
  jsSlice0 size
    ((eligibleTopIssues issues subtractNegative dashboardLabel filter).insertionSort
      topIssueGE)

/-- `getIssuesDifference` from `src/helpers.ts` (lines 439-452). -/
def getIssuesDifference (issuesOne issuesTwo : List IssueNode) : List IssueNode :=
  if issuesOne.length == 0 then issuesTwo
  else if issuesTwo.length == 0 then issuesOne
  else issuesOne.filter (fun i1 => !(issuesTwo.any (fun i2 => i1.number == i2.number)))

/-- A mutating platform API call issued by the label helpers. -/
inductive GithubApiCall where
  | addLabels (issueNumber : Int) (labels : List String)
  | removeLabel (issueNumber : Int) (name : String)
deriving DecidableEq, Repr

/-- `addLabelToIssue` from `src/helpers.ts` (lines 389-412), modelled by the
list of platform calls it issues: the `octokit.rest.issues.addLabels` call is
made only inside the guard
`if (!issue.labels.nodes.some(lab => lab.name === label))`. -/
def addLabelToIssue (issue : IssueNode) (label : String) : List GithubApiCall :=
  if !(issue.labels.nodes.any (fun lab => lab.name == label)) then
    [GithubApiCall.addLabels issue.number [label]]
  else []

/-- `removeLabelFromIssue` from `src/helpers.ts` (lines 462-485), modelled by
the list of platform calls it issues: the `octokit.rest.issues.removeLabel`
call is made only inside the guard
`if (issue.labels.nodes.some(lab => lab.name === label))`. -/
def removeLabelFromIssue (issue : IssueNode) (label : String) : List GithubApiCall :=
  if issue.labels.nodes.any (fun lab => lab.name == label) then
    [GithubApiCall.removeLabel issue.number label]
  else []

/-- The configuration inputs consulted by the early-exit check in
`src/main.ts`. The custom categories are enabled by a non-empty
`custom_label` / `custom_pull_requests_label` string (JS truthiness). -/
structure ActionConfig where
  topIssues : Bool
  topBugs : Bool
  topFeatures : Bool
  topPullRequests : Bool
  customLabel : String
  customPullRequestsLabel : String
  label : Bool
  dashboard : Bool
deriving DecidableEq, Repr

/-- The early-exit condition of `run` in `src/main.ts` (line 92):
`(!TOP_ISSUES && !TOP_BUGS && !TOP_FEATURES) || (!LABEL && !DASHBOARD)`. -/
def nothingToDo (c : ActionConfig) : Bool :=
  (!c.topIssues && !c.topBugs && !c.topFeatures) || (!c.label && !c.dashboard)

/-- Whether some category is enabled, following the specification: the
categories are issues, bugs, features, pull requests, and the custom
issue/pull-request categories (enabled by a non-empty label input). -/
def specCategoryEnabled (c : ActionConfig) : Bool :=
  c.topIssues || c.topBugs || c.topFeatures || c.topPullRequests ||
    (c.customLabel != "") || (c.customPullRequestsLabel != "")

/-- The early-exit condition as the specification states it: no category is
enabled, or neither labeling nor dashboard publishing is enabled. -/
def specEarlyExit (c : ActionConfig) : Bool :=
  !(specCategoryEnabled c) || (!c.label && !c.dashboard)

/-- One numbered dashboard line from `createDashboardMarkdown`
(`src/helpers.ts`): either `idx+1. #number` or, with reaction counts shown,
`idx+1. #number :+1:` followed by the count in backticks. -/
def dashboardItemLine (showTotalReactions : Bool) (idx : Nat)
    (issue : TopIssueNode) : String :=
  if showTotalReactions then
    toString (idx + 1) ++ ". #" ++ toString issue.number ++ " :+1:" ++ "`" ++
      toString issue.totalReactions ++ "`"
  else
    toString (idx + 1) ++ ". #" ++ toString issue.number

/-- The numbered-list part of a dashboard section: the template
`\n` + `map(...).join('\n')` from `createDashboardMarkdown`. -/
def dashboardSectionList (issues : List TopIssueNode)
    (showTotalReactions : Bool) : String :=
  "\n" ++ String.intercalate "\n"
    (issues.enum.map (fun p => dashboardItemLine showTotalReactions p.1 p.2))

/-- One dashboard section from `createDashboardMarkdown`: each of the six
`if (list.length > 0)` blocks appends `\n\n## ` + heading + `\n` and then the
numbered list; an empty list contributes nothing. -/
def dashboardSection (heading : String) (issues : List TopIssueNode)
    (showTotalReactions : Bool) : String :=
  if 0 < issues.length then
    "\n\n## " ++ heading ++ "\n" ++ dashboardSectionList issues showTotalReactions
  else ""

/-- `createDashboardMarkdown` from `src/helpers.ts` (lines 561-643):
starts from `header`, accumulates the six category sections, falls back to a
single "Top issues" section when every section is empty
(`if (dashboard_issues_body)`), and appends the footer after a blank line
exactly when the footer is non-empty (`if (footer)`). -/
def createDashboardMarkdown (topIssues topBugs topFeatures topPRs
    topCustom : List TopIssueNode) (topCustomLabel : String)
    (topCustomPRs : List TopIssueNode) (topCustomPRsLabel : String)
    (header footer : String) (showTotalReactions : Bool) : String :=
  let dashboard_issues_body : String :=
    dashboardSection "Top issues" topIssues showTotalReactions ++
    dashboardSection "Top bugs" topBugs showTotalReactions ++
    dashboardSection "Top feature requests" topFeatures showTotalReactions ++
    dashboardSection "Top PRs" topPRs showTotalReactions ++
    dashboardSection ("Top '" ++ topCustomLabel ++ "' issues") topCustom
      showTotalReactions ++
    dashboardSection ("Top '" ++ topCustomPRsLabel ++ "' pull requests")
      topCustomPRs showTotalReactions
  let dashboard_body : String :=
    if dashboard_issues_body = "" then
      header ++ "\n\n## Top issues\n\n> Could not find any top issues :zzz:."
    else header ++ dashboard_issues_body
  if footer = "" then dashboard_body else dashboard_body ++ "\n\n" ++ footer

/-- Erase the negative reaction count of an issue; two fetched lists are
"identical except in negative reaction counts" exactly when their images
under this map coincide. -/
def eraseNegative (i : IssueNode) : IssueNode :=
  { i with negative := ⟨0⟩ }

/-- Erase the negative reaction count of a scored issue. -/
def eraseNegativeTop (t : TopIssueNode) : TopIssueNode :=
  { t with negative := ⟨0⟩ }

/-! ### Concrete sample inputs -/

/-- A sample issue with two positive reactions and no labels. -/
def issueA : IssueNode := ⟨1, "Issue A", ⟨2⟩, ⟨0⟩, ⟨[]⟩⟩

/-- A sample issue with one positive reaction and no labels. -/
def issueB : IssueNode := ⟨2, "Issue B", ⟨1⟩, ⟨0⟩, ⟨[]⟩⟩

/-- A sample issue carrying the dashboard label alongside another label. -/
def issueMixed : IssueNode :=
  ⟨7, "Mixed", ⟨3⟩, ⟨0⟩, ⟨[⟨"top-dashboard"⟩, ⟨"bug"⟩]⟩⟩

/-- A sample issue with no reactions at all (ineligible for ranking). -/
def issueZero : IssueNode := ⟨4, "Zero", ⟨0⟩, ⟨0⟩, ⟨[]⟩⟩

/-- A sample issue with positive and negative reactions. -/
def issueNeg : IssueNode := ⟨3, "Neg", ⟨2⟩, ⟨5⟩, ⟨[]⟩⟩

/-- `issueNeg` with its negative reactions removed. -/
def issueNegScrubbed : IssueNode := ⟨3, "Neg", ⟨2⟩, ⟨0⟩, ⟨[]⟩⟩

/-- The configuration with only the pull-request category enabled, together
with labeling. -/
def prOnlyConfig : ActionConfig :=
  ⟨false, false, false, true, "", "", true, false⟩

/-! ### Helper lemmas -/

lemma jsSlice0_initial (size : Int) (l : List α) : jsSlice0 size l <+: l := by
  unfold jsSlice0
  split <;> exact List.take_prefix _ _

lemma jsSlice0_sublist (size : Int) (l : List α) : List.Sublist (jsSlice0 size l) l :=
  (jsSlice0_initial size l).sublist

lemma jsSlice0_nil (size : Int) : jsSlice0 size ([] : List α) = [] := by
  unfold jsSlice0
  split <;> simp

lemma jsSlice0_map (f : α → β) (size : Int) (l : List α) :
    jsSlice0 size (l.map f) = (jsSlice0 size l).map f := by
  unfold jsSlice0
  simp only [List.length_map]
  split <;> simp [List.map_take]

lemma jsSlice0_of_length_le {size : Int} (h0 : 0 ≤ size) {l : List α}
    (h : (l.length : Int) ≤ size) : jsSlice0 size l = l := by
  unfold jsSlice0
  rw [if_pos h0]
  exact List.take_of_length_le (by omega)

/-- Every element of the eligible list satisfies the three filter predicates
and is the scored copy of an input issue. -/
lemma mem_eligibleTopIssues {x : TopIssueNode} {issues : List IssueNode}
    {sub : Bool} {dash : String} {filt : Option (List Int)}
    (h : x ∈ eligibleTopIssues issues sub dash filt) :
    0 < x.totalReactions ∧
    (((x.labels.nodes.length == 0) ||
        x.labels.nodes.any (fun lab => lab.name != dash)) = true) ∧
    (∀ f, filt = some f → f.contains x.number = false) ∧
    (∃ i ∈ issues, x = mkTopIssue i sub) := by
  have h2 : x ∈ addTotalReactions issues sub ∧
      (((x.labels.nodes.length == 0) ||
        x.labels.nodes.any (fun lab => lab.name != dash)) = true) ∧
      0 < x.totalReactions ∧
      (∀ f, filt = some f → f.contains x.number = false) := by
    cases filt with
    | none =>
      simp only [eligibleTopIssues, List.mem_filter] at h
      obtain ⟨⟨h1, hlab⟩, hpos⟩ := h
      exact ⟨h1, hlab, by simpa using hpos, by intro f hf; cases hf⟩
    | some f =>
      simp only [eligibleTopIssues, List.mem_filter] at h
      obtain ⟨h3, hpos⟩ := h
      by_cases hf : 0 < f.length
      · rw [if_pos hf] at h3
        simp only [List.mem_filter] at h3
        obtain ⟨⟨h1, hlab⟩, hflt⟩ := h3
        refine ⟨h1, hlab, by simpa using hpos, ?_⟩
        intro g hg
        injection hg with hg
        subst hg
        simpa using hflt
      · rw [if_neg hf] at h3
        simp only [List.mem_filter] at h3
        obtain ⟨h1, hlab⟩ := h3
        have hfnil : f = [] := by
          cases f with
          | nil => rfl
          | cons a t => exact absurd (by simp) hf
        refine ⟨h1, hlab, by simpa using hpos, ?_⟩
        intro g hg
        injection hg with hg
        subst hg
        simp [hfnil]
  obtain ⟨h1, hlab, hpos', h2b⟩ := h2
  obtain ⟨i, hi, hx⟩ := List.mem_map.mp h1
  exact ⟨hpos', hlab, h2b, ⟨i, hi, hx.symm⟩⟩

lemma mem_getTopIssues {x : TopIssueNode} {issues : List IssueNode}
    {size : Int} {sub : Bool} {dash : String} {filt : Option (List Int)}
    (h : x ∈ getTopIssues issues size sub dash filt) :
    x ∈ eligibleTopIssues issues sub dash filt := by
  have h1 : x ∈ (eligibleTopIssues issues sub dash filt).insertionSort topIssueGE :=
    (jsSlice0_sublist size _).subset h
  exact (List.mem_insertionSort topIssueGE).mp h1

lemma getTopIssues_pairwise (issues : List IssueNode) (size : Int) (sub : Bool)
    (dash : String) (filt : Option (List Int)) :
    List.Pairwise topIssueGE (getTopIssues issues size sub dash filt) :=
  List.Pairwise.sublist (jsSlice0_sublist size _)
    (List.sorted_insertionSort topIssueGE _)

/-- Stability of `orderedInsert` under the descending relation: the elements
skipped over have strictly larger key, so filtering by any key value sees the
inserted element first. -/
lemma filter_key_orderedInsert (k : Int) (x : TopIssueNode) :
    ∀ l : List TopIssueNode,
      (List.orderedInsert topIssueGE x l).filter
          (fun y => y.totalReactions == k)
        = if x.totalReactions == k
          then x :: l.filter (fun y => y.totalReactions == k)
          else l.filter (fun y => y.totalReactions == k)
  | [] => by simp [List.orderedInsert, List.filter_cons]
  | b :: t => by
    rw [List.orderedInsert]
    by_cases hbx : topIssueGE x b
    · rw [if_pos hbx, List.filter_cons, List.filter_cons]
    · rw [if_neg hbx, List.filter_cons, filter_key_orderedInsert k x t,
        List.filter_cons]
      have hlt : x.totalReactions < b.totalReactions := by
        simpa [topIssueGE, not_le] using hbx
      by_cases hxk : x.totalReactions = k
      · have hbk : (b.totalReactions == k) = false := by
          simp only [beq_eq_false_iff_ne, ne_eq]
          omega
        simp [hxk, hbk]
      · have hxk' : (x.totalReactions == k) = false := by
          simpa using hxk
        simp [hxk']

/-- Stability of the full sort: for every key value, the sorted list and the
input list agree on the subsequence of elements with that key. -/
lemma filter_key_insertionSort (k : Int) :
    ∀ l : List TopIssueNode,
      (l.insertionSort topIssueGE).filter (fun y => y.totalReactions == k)
        = l.filter (fun y => y.totalReactions == k)
  | [] => rfl
  | a :: t => by
    rw [List.insertionSort, filter_key_orderedInsert, filter_key_insertionSort k t,
      List.filter_cons]

lemma eligibleTopIssues_nil (sub : Bool) (dash : String)
    (filt : Option (List Int)) : eligibleTopIssues [] sub dash filt = [] := by
  cases filt with
  | none => rfl
  | some f => simp [eligibleTopIssues, addTotalReactions]

/-- Applying the filter pipeline to the output of `getTopIssues` changes
nothing: every output element already satisfies every filter, and its
`totalReactions` recomputes to itself. -/
lemma eligibleTopIssues_getTopIssues (issues : List IssueNode) (size : Int)
    (sub : Bool) (dash : String) (filt : Option (List Int)) :
    eligibleTopIssues ((getTopIssues issues size sub dash filt).map toIssueNode)
        sub dash filt
      = getTopIssues issues size sub dash filt := by
  have hfacts : ∀ x ∈ getTopIssues issues size sub dash filt,
      0 < x.totalReactions ∧
      (((x.labels.nodes.length == 0) ||
          x.labels.nodes.any (fun lab => lab.name != dash)) = true) ∧
      (∀ f, filt = some f → f.contains x.number = false) ∧
      (∃ i ∈ issues, x = mkTopIssue i sub) :=
    fun x hx => mem_eligibleTopIssues (mem_getTopIssues hx)
  have hadd : addTotalReactions
      ((getTopIssues issues size sub dash filt).map toIssueNode) sub
      = getTopIssues issues size sub dash filt := by
    unfold addTotalReactions
    rw [List.map_map]
    have hid : ∀ x ∈ getTopIssues issues size sub dash filt,
        ((fun issue => mkTopIssue issue sub) ∘ toIssueNode) x = id x := by
      intro x hx
      obtain ⟨-, -, -, i, hi, rfl⟩ := hfacts x hx
      rfl
    rw [List.map_congr_left hid, List.map_id]
  have hl1 : (getTopIssues issues size sub dash filt).filter (fun issue =>
      (issue.labels.nodes.length == 0) ||
        issue.labels.nodes.any (fun lab => lab.name != dash))
      = getTopIssues issues size sub dash filt :=
    List.filter_eq_self.mpr (fun a ha => (hfacts a ha).2.1)
  have hl3 : (getTopIssues issues size sub dash filt).filter
        (fun issue => decide (0 < issue.totalReactions))
      = getTopIssues issues size sub dash filt :=
    List.filter_eq_self.mpr (fun a ha => by simpa using (hfacts a ha).1)
  cases filt with
  | none =>
    simp only [eligibleTopIssues]
    rw [hadd, hl1, hl3]
  | some f =>
    simp only [eligibleTopIssues]
    rw [hadd, hl1]
    by_cases hf : 0 < f.length
    · rw [if_pos hf]
      have hff : (getTopIssues issues size sub dash (some f)).filter
            (fun issue => !(f.contains issue.number))
          = getTopIssues issues size sub dash (some f) :=
        List.filter_eq_self.mpr (fun a ha => by
          have hc := (hfacts a ha).2.2.1 f rfl
          rw [hc]
          rfl)
      rw [hff, hl3]
    · rw [if_neg hf, hl3]

lemma insertionSort_getTopIssues (issues : List IssueNode) (size : Int)
    (sub : Bool) (dash : String) (filt : Option (List Int)) :
    (getTopIssues issues size sub dash filt).insertionSort topIssueGE
      = getTopIssues issues size sub dash filt :=
  List.Sorted.insertionSort_eq (getTopIssues_pairwise issues size sub dash filt)

lemma length_getTopIssues_le {size : Int} (h0 : 0 ≤ size)
    (issues : List IssueNode) (sub : Bool) (dash : String)
    (filt : Option (List Int)) :
    ((getTopIssues issues size sub dash filt).length : Int) ≤ size := by
  unfold getTopIssues jsSlice0
  rw [if_pos h0]
  have := List.length_take_le size.toNat
    ((eligibleTopIssues issues sub dash filt).insertionSort topIssueGE)
  omega

/-- Adding total reactions commutes with erasing negative counts in
non-subtract mode, because the score only reads the positive count. -/
lemma addTotalReactions_map_eraseNegative (l : List IssueNode) :
    addTotalReactions (l.map eraseNegative) false
      = (addTotalReactions l false).map eraseNegativeTop := by
  unfold addTotalReactions
  rw [List.map_map, List.map_map]
  rfl

lemma filter_map_eraseNegativeTop (p : TopIssueNode → Bool)
    (hp : ∀ t, p (eraseNegativeTop t) = p t) (l : List TopIssueNode) :
    (l.map eraseNegativeTop).filter p = (l.filter p).map eraseNegativeTop := by
  rw [List.filter_map]
  congr 1
  exact List.filter_congr (fun a _ => hp a)

lemma insertionSort_map_eraseNegativeTop (l : List TopIssueNode) :
    (l.map eraseNegativeTop).insertionSort topIssueGE
      = (l.insertionSort topIssueGE).map eraseNegativeTop :=
  (List.map_insertionSort topIssueGE topIssueGE eraseNegativeTop l
    (fun _ _ _ _ => Iff.rfl)).symm

/-- The whole ranking pipeline in non-subtract mode commutes with erasing
negative reaction counts. -/
lemma getTopIssues_map_eraseNegative (l : List IssueNode) (size : Int)
    (dash : String) (filt : Option (List Int)) :
    getTopIssues (l.map eraseNegative) size false dash filt
      = (getTopIssues l size false dash filt).map eraseNegativeTop := by
  have helig : eligibleTopIssues (l.map eraseNegative) false dash filt
      = (eligibleTopIssues l false dash filt).map eraseNegativeTop := by
    cases filt with
    | none =>
      simp only [eligibleTopIssues]
      rw [addTotalReactions_map_eraseNegative,
        filter_map_eraseNegativeTop (fun issue =>
          (issue.labels.nodes.length == 0) ||
            issue.labels.nodes.any (fun lab => lab.name != dash)) (fun t => rfl),
        filter_map_eraseNegativeTop
          (fun issue => decide (0 < issue.totalReactions)) (fun t => rfl)]
    | some f =>
      simp only [eligibleTopIssues]
      by_cases hf : 0 < f.length
      · rw [if_pos hf, if_pos hf, addTotalReactions_map_eraseNegative,
          filter_map_eraseNegativeTop (fun issue =>
            (issue.labels.nodes.length == 0) ||
              issue.labels.nodes.any (fun lab => lab.name != dash)) (fun t => rfl),
          filter_map_eraseNegativeTop
            (fun issue => !(f.contains issue.number)) (fun t => rfl),
          filter_map_eraseNegativeTop
            (fun issue => decide (0 < issue.totalReactions)) (fun t => rfl)]
      · rw [if_neg hf, if_neg hf, addTotalReactions_map_eraseNegative,
          filter_map_eraseNegativeTop (fun issue =>
            (issue.labels.nodes.length == 0) ||
              issue.labels.nodes.any (fun lab => lab.name != dash)) (fun t => rfl),
          filter_map_eraseNegativeTop
            (fun issue => decide (0 < issue.totalReactions)) (fun t => rfl)]
  unfold getTopIssues
  rw [helig, insertionSort_map_eraseNegativeTop, jsSlice0_map]

lemma dashboardSection_nil (heading : String) (sr : Bool) :
    dashboardSection heading [] sr = "" := rfl

/-- The rendered dashboard always has the shape `header ++ core ++ footer
part`, where `core` does not depend on the footer. -/
lemma createDashboardMarkdown_shape (ti tb tf tp tc : List TopIssueNode)
    (cl : String) (tcp : List TopIssueNode) (cpl header footer : String)
    (sr : Bool) :
    ∃ core : String,
      createDashboardMarkdown ti tb tf tp tc cl tcp cpl header footer sr
        = (header ++ core) ++ (if footer = "" then "" else "\n\n" ++ footer) ∧
      createDashboardMarkdown ti tb tf tp tc cl tcp cpl header "" sr
        = header ++ core := by
  simp only [createDashboardMarkdown]
  by_cases hb : (dashboardSection "Top issues" ti sr ++
      dashboardSection "Top bugs" tb sr ++
      dashboardSection "Top feature requests" tf sr ++
      dashboardSection "Top PRs" tp sr ++
      dashboardSection ("Top '" ++ cl ++ "' issues") tc sr ++
      dashboardSection ("Top '" ++ cpl ++ "' pull requests") tcp sr) = ""
  · refine ⟨"\n\n## Top issues\n\n> Could not find any top issues :zzz:.",
      ?_, ?_⟩
    · rw [if_pos hb]
      by_cases hf : footer = ""
      · rw [if_pos hf, if_pos hf, String.append_empty]
      · rw [if_neg hf, if_neg hf, String.append_assoc]
    · rw [if_pos trivial, if_pos hb]
  · refine ⟨dashboardSection "Top issues" ti sr ++
      dashboardSection "Top bugs" tb sr ++
      dashboardSection "Top feature requests" tf sr ++
      dashboardSection "Top PRs" tp sr ++
      dashboardSection ("Top '" ++ cl ++ "' issues") tc sr ++
      dashboardSection ("Top '" ++ cpl ++ "' pull requests") tcp sr, ?_, ?_⟩
    · rw [if_neg hb]
      by_cases hf : footer = ""
      · rw [if_pos hf, if_pos hf, String.append_empty]
      · rw [if_neg hf, if_neg hf, String.append_assoc]
    · rw [if_pos trivial, if_neg hb]

/-! ### Claims -/

/-- C1 (counterexample): the claim that `getIssuesDifference` with an empty
first list returns the empty list is false: with an empty `issuesOne` the
code returns `issuesTwo` in full. -/
theorem getIssuesDifference_empty_first_counterexample :
    getIssuesDifference [] [issueA] = [issueA] ∧
      getIssuesDifference [] [issueA] ≠ [] := by
  constructor
  · rfl
  · decide

/-- C1 (amended): when `previouslyLabeled` is non-empty, `getIssuesDifference`
returns exactly its items whose id does not appear among `newlySelected`
(in particular the whole list when `newlySelected` is empty); but when
`previouslyLabeled` is empty the result is `newlySelected`, not the empty
list. -/
theorem getIssuesDifference_characterization (l1 l2 : List IssueNode) :
    (l1 ≠ [] → getIssuesDifference l1 l2
        = l1.filter (fun i1 => !(l2.any (fun i2 => i1.number == i2.number)))) ∧
    (l1 = [] → getIssuesDifference l1 l2 = l2) := by
  constructor
  · intro h1
    cases l1 with
    | nil => exact absurd rfl h1
    | cons a t =>
      cases l2 with
      | nil => simp [getIssuesDifference]
      | cons b u => simp [getIssuesDifference]
  · intro h1
    subst h1
    rfl

/-- C1 (witness). -/
theorem getIssuesDifference_characterization_witness :
    getIssuesDifference [issueA] [issueB]
        = [issueA].filter
            (fun i1 => !([issueB].any (fun i2 => i1.number == i2.number))) ∧
      getIssuesDifference ([] : List IssueNode) [issueB] = [issueB] :=
  ⟨(getIssuesDifference_characterization [issueA] [issueB]).1 (by decide),
   (getIssuesDifference_characterization [] [issueB]).2 rfl⟩

/-- C2 (counterexample): an item that carries the dashboard exclusion label
together with another label is ranked: the claim that no item carrying the
dashboard label ever appears in the output is false. -/
theorem getTopIssues_dashboard_label_counterexample :
    (getTopIssues [issueMixed] 10 true "top-dashboard" none).map
        (fun x => x.number) = [7] ∧
      issueMixed.labels.nodes.any (fun lab => lab.name == "top-dashboard")
        = true := by
  constructor
  · decide
  · decide

/-- C2 (amended): every ranked item either has no labels at all or carries
at least one label different from the dashboard label — so only items whose
(non-empty) label set consists solely of the dashboard label are removed —
and no ranked item's id is in the configured filter list. -/
theorem getTopIssues_exclusion_characterization (issues : List IssueNode)
    (size : Int) (sub : Bool) (dash : String) (f : List Int) :
    (getTopIssues issues size sub dash (some f)).all (fun x =>
      ((x.labels.nodes.length == 0) ||
        x.labels.nodes.any (fun lab => lab.name != dash)) &&
      !(f.contains x.number)) = true := by
  rw [List.all_eq_true]
  intro x hx
  obtain ⟨-, hlab, hflt, -⟩ := mem_eligibleTopIssues (mem_getTopIssues hx)
  have hc := hflt f rfl
  rw [hlab, hc]
  rfl

/-- C3 (counterexample): for a negative size the output is not empty: with
two eligible issues and size `-1`, `slice(0, -1)` keeps one element, while
the claim demands an empty result for every `size ≤ 0`. -/
theorem getTopIssues_negative_size_counterexample :
    (getTopIssues [issueA, issueB] (-1) true "" none).length = 1 ∧
      (-1 : Int) ≤ 0 := by
  constructor
  · decide
  · decide

/-- C3 (amended): for `size ≥ 0` the output length is at most `size` (and is
`0` at `size = 0`); when `size` is at least the number of eligible items the
output is the full sorted eligible list; but for `size < 0` the JavaScript
`slice(0, size)` semantics keep all but the last `|size|` eligible items
instead of yielding an empty result. -/
theorem getTopIssues_size_bound (issues : List IssueNode) (size : Int)
    (sub : Bool) (dash : String) (filt : Option (List Int)) :
    (0 ≤ size → ((getTopIssues issues size sub dash filt).length : Int) ≤ size) ∧
    (size = 0 → getTopIssues issues size sub dash filt = []) ∧
    (((eligibleTopIssues issues sub dash filt).length : Int) ≤ size →
      getTopIssues issues size sub dash filt
        = (eligibleTopIssues issues sub dash filt).insertionSort topIssueGE) ∧
    (size < 0 → ((getTopIssues issues size sub dash filt).length : Int)
        = max (((eligibleTopIssues issues sub dash filt).length : Int) + size) 0) := by
  refine ⟨fun h0 => length_getTopIssues_le h0 issues sub dash filt, ?_, ?_, ?_⟩
  · intro h
    subst h
    unfold getTopIssues jsSlice0
    simp
  · intro hle
    have h0 : 0 ≤ size := le_trans (Int.natCast_nonneg _) hle
    unfold getTopIssues
    apply jsSlice0_of_length_le h0
    rw [List.length_insertionSort]
    exact hle
  · intro hneg
    unfold getTopIssues jsSlice0
    rw [if_neg (by omega)]
    rw [List.length_take, List.length_insertionSort]
    omega

/-- C3 (witness). -/
theorem getTopIssues_size_bound_witness :
    ((getTopIssues [issueA, issueB] 1 true "" none).length : Int) ≤ 1 ∧
    getTopIssues [issueA, issueB] 0 true "" none = [] ∧
    getTopIssues [issueA, issueB] 5 true "" none
      = (eligibleTopIssues [issueA, issueB] true "" none).insertionSort
          topIssueGE ∧
    ((getTopIssues [issueA, issueB] (-1) true "" none).length : Int)
      = max (((eligibleTopIssues [issueA, issueB] true "" none).length : Int)
          + (-1)) 0 :=
  ⟨(getTopIssues_size_bound [issueA, issueB] 1 true "" none).1 (by decide),
   (getTopIssues_size_bound [issueA, issueB] 0 true "" none).2.1 rfl,
   (getTopIssues_size_bound [issueA, issueB] 5 true "" none).2.2.1 (by decide),
   (getTopIssues_size_bound [issueA, issueB] (-1) true "" none).2.2.2 (by decide)⟩

/-- C4: the early-exit check of `run` fires on a configuration with the
pull-request category enabled together with labeling, although by the
specification some category is enabled and labeling is on, so the run should
proceed: the code consults only the issues/bugs/features toggles. -/
theorem nothingToDo_ignores_pull_requests :
    nothingToDo prOnlyConfig = true ∧
    specCategoryEnabled prOnlyConfig = true ∧
    (prOnlyConfig.label || prOnlyConfig.dashboard) = true ∧
    specEarlyExit prOnlyConfig = false := by
  decide

/-- C5: every ranked item has a strictly positive score, and that score is
`positive - negative` in subtract-negative mode and `positive` otherwise. -/
theorem getTopIssues_score_floor (issues : List IssueNode) (size : Int)
    (sub : Bool) (dash : String) (filt : Option (List Int)) :
    (getTopIssues issues size sub dash filt).all (fun x =>
      decide (0 < x.totalReactions) &&
      (x.totalReactions ==
        (if sub then x.positive.totalCount - x.negative.totalCount
         else x.positive.totalCount))) = true := by
  rw [List.all_eq_true]
  intro x hx
  obtain ⟨hpos, -, -, i, hi, rfl⟩ := mem_eligibleTopIssues (mem_getTopIssues hx)
  cases sub <;> simp [mkTopIssue, getReactionsCount] <;>
    simpa [mkTopIssue, getReactionsCount] using hpos

/-- C6: the ranked output is sorted descending by score; the sort is stable,
so for every score value the ranked items with that score form a prefix of
the eligible items with that score in input order; empty input gives empty
output, and an all-ineligible input gives empty output. -/
theorem getTopIssues_sorted_stable (issues : List IssueNode) (size : Int)
    (sub : Bool) (dash : String) (filt : Option (List Int)) :
    List.Pairwise topIssueGE (getTopIssues issues size sub dash filt) ∧
    (∀ k : Int,
      (getTopIssues issues size sub dash filt).filter
          (fun x => x.totalReactions == k) <+:
        (eligibleTopIssues issues sub dash filt).filter
          (fun x => x.totalReactions == k)) ∧
    getTopIssues [] size sub dash filt = [] ∧
    (eligibleTopIssues issues sub dash filt = [] →
      getTopIssues issues size sub dash filt = []) := by
  refine ⟨getTopIssues_pairwise issues size sub dash filt, ?_, ?_, ?_⟩
  · intro k
    have hpre := (jsSlice0_initial size
      ((eligibleTopIssues issues sub dash filt).insertionSort topIssueGE)).filter
      (fun x => x.totalReactions == k)
    rw [filter_key_insertionSort] at hpre
    exact hpre
  · show jsSlice0 size
      ((eligibleTopIssues [] sub dash filt).insertionSort topIssueGE) = []
    rw [eligibleTopIssues_nil]
    exact jsSlice0_nil size
  · intro he
    show jsSlice0 size
      ((eligibleTopIssues issues sub dash filt).insertionSort topIssueGE) = []
    rw [he]
    exact jsSlice0_nil size

/-- C6 (witness). -/
theorem getTopIssues_sorted_stable_witness :
    List.Pairwise topIssueGE (getTopIssues [issueA, issueB] 10 true "" none) ∧
    ((getTopIssues [issueA, issueB] 10 true "" none).filter
        (fun x => x.totalReactions == 1) <+:
      (eligibleTopIssues [issueA, issueB] true "" none).filter
        (fun x => x.totalReactions == 1)) ∧
    getTopIssues [] 10 true "" none = [] ∧
    getTopIssues [issueZero] 10 true "" none = [] := by
  obtain ⟨h1, h2, h3, -⟩ := getTopIssues_sorted_stable [issueA, issueB] 10 true "" none
  exact ⟨h1, h2 1, h3,
    (getTopIssues_sorted_stable [issueZero] 10 true "" none).2.2.2 (by decide)⟩

/-- C7: an empty category contributes no output; when every category list is
empty the document is exactly the header followed by the single fallback
"Top issues" section; the output always begins with the header; and the
footer is appended after a blank line exactly when it is non-empty. -/
theorem createDashboardMarkdown_spec (ti tb tf tp tc : List TopIssueNode)
    (cl : String) (tcp : List TopIssueNode) (cpl header footer : String)
    (sr : Bool) :
    (∀ heading : String, dashboardSection heading [] sr = "") ∧
    createDashboardMarkdown [] [] [] [] [] cl [] cpl header footer sr
      = header ++ "\n\n## Top issues\n\n> Could not find any top issues :zzz:."
          ++ (if footer = "" then "" else "\n\n" ++ footer) ∧
    (∃ rest : String,
      createDashboardMarkdown ti tb tf tp tc cl tcp cpl header footer sr
        = header ++ rest) ∧
    createDashboardMarkdown ti tb tf tp tc cl tcp cpl header footer sr
      = createDashboardMarkdown ti tb tf tp tc cl tcp cpl header "" sr
          ++ (if footer = "" then "" else "\n\n" ++ footer) := by
  refine ⟨fun heading => rfl, ?_, ?_, ?_⟩
  · by_cases hf : footer = ""
    · subst hf
      rw [if_pos rfl, String.append_empty]
      rfl
    · rw [if_neg hf]
      show (if footer = "" then
          header ++ "\n\n## Top issues\n\n> Could not find any top issues :zzz:."
        else header ++ "\n\n## Top issues\n\n> Could not find any top issues :zzz:."
          ++ "\n\n" ++ footer)
        = header ++ "\n\n## Top issues\n\n> Could not find any top issues :zzz:."
          ++ ("\n\n" ++ footer)
      rw [if_neg hf, String.append_assoc]
  · obtain ⟨core, h1, -⟩ :=
      createDashboardMarkdown_shape ti tb tf tp tc cl tcp cpl header footer sr
    exact ⟨core ++ (if footer = "" then "" else "\n\n" ++ footer),
      by rw [h1, String.append_assoc]⟩
  · obtain ⟨core, h1, h2⟩ :=
      createDashboardMarkdown_shape ti tb tf tp tc cl tcp cpl header footer sr
    rw [h1, h2]

/-- C8 (counterexample): ranking is not idempotent for a negative size: the
JavaScript slice drops elements from the end again on the second pass. -/
theorem getTopIssues_not_idempotent_negative_size :
    getTopIssues ((getTopIssues [issueA, issueB] (-1) true "" none).map
        toIssueNode) (-1) true "" none
      ≠ getTopIssues [issueA, issueB] (-1) true "" none := by
  decide

/-- C8 (amended): for every non-negative size, applying `getTopIssues` to its
own output (with the same arguments) returns that output unchanged. -/
theorem getTopIssues_idempotent (issues : List IssueNode) (size : Int)
    (sub : Bool) (dash : String) (filt : Option (List Int)) (h0 : 0 ≤ size) :
    getTopIssues ((getTopIssues issues size sub dash filt).map toIssueNode)
        size sub dash filt
      = getTopIssues issues size sub dash filt := by
  have h1 : getTopIssues
      ((getTopIssues issues size sub dash filt).map toIssueNode) size sub dash filt
      = jsSlice0 size ((eligibleTopIssues
          ((getTopIssues issues size sub dash filt).map toIssueNode)
          sub dash filt).insertionSort topIssueGE) := rfl
  rw [h1, eligibleTopIssues_getTopIssues, insertionSort_getTopIssues]
  exact jsSlice0_of_length_le h0 (length_getTopIssues_le h0 issues sub dash filt)

/-- C8 (witness). -/
theorem getTopIssues_idempotent_witness :
    getTopIssues ((getTopIssues [issueA, issueB] 2 true "" none).map
        toIssueNode) 2 true "" none
      = getTopIssues [issueA, issueB] 2 true "" none :=
  getTopIssues_idempotent [issueA, issueB] 2 true "" none (by decide)

/-- C9: the add-label helper issues no platform call exactly when the issue
already carries the label, and the remove-label helper issues no platform
call exactly when the issue does not carry it; in either no-op case no error
path can be reached since no call is made. -/
theorem labelMutation_guards (issue : IssueNode) (label : String) :
    (addLabelToIssue issue label = [] ↔
      issue.labels.nodes.any (fun lab => lab.name == label) = true) ∧
    (removeLabelFromIssue issue label = [] ↔
      issue.labels.nodes.any (fun lab => lab.name == label) = false) := by
  unfold addLabelToIssue removeLabelFromIssue
  by_cases h : issue.labels.nodes.any (fun lab => lab.name == label) = true
  · simp [h]
  · have h' : issue.labels.nodes.any (fun lab => lab.name == label) = false := by
      simpa using h
    simp [h']

/-- C10: in non-subtract mode the ranking never reads negative reaction
counts: two inputs that agree on everything except negative counts select
the same ids in the same order. -/
theorem getTopIssues_negative_noninterference (l1 l2 : List IssueNode)
    (size : Int) (dash : String) (filt : Option (List Int))
    (h : l1.map eraseNegative = l2.map eraseNegative) :
    (getTopIssues l1 size false dash filt).map (fun x => x.number)
      = (getTopIssues l2 size false dash filt).map (fun x => x.number) := by
  have hnum : ∀ l : List IssueNode,
      (getTopIssues (l.map eraseNegative) size false dash filt).map
          (fun x => x.number)
        = (getTopIssues l size false dash filt).map (fun x => x.number) := by
    intro l
    rw [getTopIssues_map_eraseNegative, List.map_map]
    rfl
  rw [← hnum l1, ← hnum l2, h]

/-- C10 (witness). -/
theorem getTopIssues_negative_noninterference_witness :
    (getTopIssues [issueNeg, issueB] 10 false "" none).map (fun x => x.number)
      = (getTopIssues [issueNegScrubbed, issueB] 10 false "" none).map
          (fun x => x.number) :=
  getTopIssues_negative_noninterference [issueNeg, issueB]
    [issueNegScrubbed, issueB] 10 "" none (by decide)

end TopIssuesAction
